import Mathlib

/-!
Verification development for an ESG analytics dashboard.

The embedding models the pandas DataFrame as a `List Row`, where `Row`
carries the columns used by the analysis modules (`data_loader.py`,
`esg_analyzer.py`, `esg_simulator.py`, `peer_benchmark.py`).  Numeric
columns are rationals, `year` is an integer and categorical columns are
strings.  Python `round(x, 1)` is modelled exactly as round-half-even on
rationals; the square root inside the sample standard deviation is kept
abstract (a parameter constrained to be positive on positives and zero at
zero), since only the sign of the standard deviation matters to the code.
-/

/-- ESG pillar keys of the score dictionaries used by the simulator. -/
inductive Pillar : Type
  | environmental
  | social
  | governance
  deriving DecidableEq, Fintype

/-- One row of the ESG dataset (one company in one year). -/
structure Row : Type where
  company : String
  sector : String
  country : String
  year : ℤ
  environmental_score : ℚ
  social_score : ℚ
  governance_score : ℚ
  total_esg_score : ℚ
  carbon_emissions_mt : ℚ
  controversy_score : ℚ
  market_cap_billion : ℚ
  safety_incidents : ℚ
  board_independence_pct : ℚ
  diversity_score : ℚ
  employee_turnover_pct : ℚ
  deriving DecidableEq

instance : Inhabited Row :=
  ⟨⟨"", "", "", 0, 0, 0, 0, 0, 0, 0, 0, 0, 0, 0, 0⟩⟩

/-- Round-half-even to an integer, the tie-breaking rule of Python round. -/
def rhe (q : ℚ) : ℤ :=
  if Int.fract q < 1 / 2 then ⌊q⌋
  else if 1 / 2 < Int.fract q then ⌊q⌋ + 1
  else if ⌊q⌋ % 2 = 0 then ⌊q⌋ else ⌊q⌋ + 1

/-- Python round to one decimal place, as done on the score columns. -/
def round1 (q : ℚ) : ℚ := (rhe (q * 10) : ℚ) / 10

lemma le_rhe (q : ℚ) : ⌊q⌋ ≤ rhe q := by
  unfold rhe; split_ifs <;> omega

lemma rhe_le (q : ℚ) : rhe q ≤ ⌊q⌋ + 1 := by
  unfold rhe; split_ifs <;> omega

lemma rhe_intCast (n : ℤ) : rhe (n : ℚ) = n := by
  unfold rhe
  rw [Int.fract_intCast]
  norm_num

lemma rhe_mono {a b : ℚ} (h : a ≤ b) : rhe a ≤ rhe b := by
  rcases lt_or_eq_of_le (Int.floor_le_floor h) with hf | hf
  · calc rhe a ≤ ⌊a⌋ + 1 := rhe_le a
      _ ≤ ⌊b⌋ := by omega
      _ ≤ rhe b := le_rhe b
  · have hfr : Int.fract a ≤ Int.fract b := by
      unfold Int.fract
      rw [hf]
      have : (⌊b⌋ : ℚ) ≤ (⌊b⌋ : ℚ) := le_refl _
      linarith
    unfold rhe
    rw [hf]
    split_ifs <;> first | omega | linarith

lemma round1_mono {a b : ℚ} (h : a ≤ b) : round1 a ≤ round1 b := by
  unfold round1
  have h10 : a * 10 ≤ b * 10 := by linarith
  have := rhe_mono h10
  have hc : ((rhe (a * 10) : ℚ)) ≤ ((rhe (b * 10) : ℚ)) := by exact_mod_cast this
  linarith

lemma round1_le_100 {q : ℚ} (h : q ≤ 100) : round1 q ≤ 100 := by
  have h10 : q * 10 ≤ ((1000 : ℤ) : ℚ) := by push_cast; linarith
  have := rhe_mono h10
  rw [rhe_intCast] at this
  have hc : ((rhe (q * 10) : ℚ)) ≤ 1000 := by exact_mod_cast this
  unfold round1
  linarith

/-! Embedding of data_loader.py -/

/-- One criterion of filter_data: a Python truthiness test on an optional
list, then a membership filter on the field (data_loader.py lines 90-99). -/
def applyFilter {β : Type} [DecidableEq β] (d : List Row) (crit : Option (List β))
    (field : Row → β) : List Row :=
  match crit with
  | none => d
  | some l => if l.isEmpty then d else d.filter (fun r => decide (field r ∈ l))

/-- data_loader.filter_data: sequential filters on company, sector,
country and year, each skipped when its criterion is None or empty. -/
def filter_data (df : List Row) (companies sectors countries : Option (List String))
    (years : Option (List ℤ)) : List Row :=
  applyFilter (applyFilter (applyFilter (applyFilter df companies Row.company)
    sectors Row.sector) countries Row.country) years Row.year

/-- data_loader.get_esg_rating: score to (rating, color) tuple. -/
def get_esg_rating (score : ℚ) : String × String :=
  if score ≥ 80 then ("AAA", "#006400")
  else if score ≥ 70 then ("AA", "#228B22")
  else if score ≥ 60 then ("A", "#32CD32")
  else if score ≥ 50 then ("BBB", "#FFD700")
  else if score ≥ 40 then ("BB", "#FFA500")
  else if score ≥ 30 then ("B", "#FF6347")
  else if score ≥ 20 then ("CCC", "#FF4500")
  else ("CC", "#DC143C")

/-- The rows of df belonging to one company, in their original order. -/
def companyRows (df : List Row) (company : String) : List Row :=
  df.filter (fun r => decide (r.company = company))

/-- The four score columns that calculate_yoy_change loops over. -/
inductive ScoreCol : Type
  | environmental_score
  | social_score
  | governance_score
  | total_esg_score
  deriving DecidableEq, Fintype

/-- Accessor of a score column. -/
def colFn : ScoreCol → Row → ℚ
  | .environmental_score => Row.environmental_score
  | .social_score => Row.social_score
  | .governance_score => Row.governance_score
  | .total_esg_score => Row.total_esg_score

/-- pandas sort_values on the year column. -/
def sortByYear (rows : List Row) : List Row :=
  rows.insertionSort (fun a b => a.year ≤ b.year)

/-- pandas Series.diff: first entry NaN (None), then consecutive
differences. -/
def diffList (xs : List ℚ) : List (Option ℚ) :=
  match xs with
  | [] => []
  | x :: rest => none :: List.zipWith (fun b a => some (b - a)) rest (x :: rest)

/-- Result of calculate_yoy_change: the sorted company rows plus one
change column per score column. -/
structure YoYResult : Type where
  rows : List Row
  changes : ScoreCol → List (Option ℚ)

/-- data_loader.calculate_yoy_change: sort the company rows by year and
diff each score column. -/
def calculate_yoy_change (df : List Row) (company : String) : YoYResult :=
  ⟨sortByYear (companyRows df company),
    fun col => diffList ((sortByYear (companyRows df company)).map (colFn col))⟩

/-! Embedding of esg_simulator.py -/

/-- Pillar weights of ESGSimulator. -/
def weights : Pillar → ℚ
  | .environmental => 33 / 100
  | .social => 33 / 100
  | .governance => 34 / 100

/-- ESGSimulator.calculate_total_score. -/
def calculate_total_score (env_score social_score gov_score : ℚ) : ℚ :=
  env_score * weights .environmental + social_score * weights .social +
    gov_score * weights .governance

/-- Result of simulate_improvements: the current, projected and delta
dictionaries together with their total entries. -/
structure SimulationResults : Type where
  current : Pillar → Option ℚ
  currentTotal : ℚ
  projected : Pillar → ℚ
  projectedTotal : ℚ
  delta : Pillar → ℚ
  deltaTotal : ℚ
  improvement_pct : Pillar → Option ℚ

/-- ESGSimulator.simulate_improvements: per pillar, projected is
min(100, current + current * pct / 100) with missing entries read as 0,
delta is projected minus current, and totals are the weighted sums. -/
def simulate_improvements (current_scores improvements : Pillar → Option ℚ) :
    SimulationResults :=
  let projected : Pillar → ℚ := fun p =>
    min 100 ((current_scores p).getD 0 +
      (current_scores p).getD 0 * (improvements p).getD 0 / 100)
  let currentTotal := calculate_total_score ((current_scores .environmental).getD 0)
    ((current_scores .social).getD 0) ((current_scores .governance).getD 0)
  let projectedTotal := calculate_total_score (projected .environmental)
    (projected .social) (projected .governance)
  ⟨current_scores, currentTotal, projected, projectedTotal,
    fun p => projected p - (current_scores p).getD 0,
    projectedTotal - currentTotal, improvements⟩

/-- One year of the trajectory loop: add (100 - score) * (rate / 100) * 0.5,
capped at 100. -/
def trajStep (rate score : ℚ) : ℚ :=
  min 100 (score + (100 - score) * (rate / 100) * (1 / 2))

/-- Inner loop of predict_future_trajectory: iterate trajStep from the
current score. -/
def trajScore (current rate : ℚ) : ℕ → ℚ
  | 0 => current
  | n + 1 => trajStep rate (trajScore current rate n)

/-- One row of the trajectory DataFrame. -/
structure TrajRow : Type where
  year : ℕ
  environmental : ℚ
  social : ℚ
  governance : ℚ
  total : ℚ

/-- ESGSimulator.predict_future_trajectory: for each year from 0 to years,
recompute each pillar score by iterating the capped growth step and round
it to one decimal; total is the weighted sum of the rounded values. -/
def predict_future_trajectory (current_scores annual_improvement_rate : Pillar → Option ℚ)
    (years : ℕ) : List TrajRow :=
  (List.range (years + 1)).map (fun year =>
    let score : Pillar → ℚ := fun p =>
      round1 (trajScore ((current_scores p).getD 0)
        ((annual_improvement_rate p).getD 0) year)
    ⟨year, score .environmental, score .social, score .governance,
      calculate_total_score (score .environmental) (score .social)
        (score .governance)⟩)

/-- ESGSimulator._score_to_rating. -/
def score_to_rating (score : ℚ) : String :=
  if score ≥ 80 then "AAA"
  else if score ≥ 75 then "AA"
  else if score ≥ 70 then "A"
  else if score ≥ 65 then "BBB"
  else if score ≥ 60 then "BB"
  else if score ≥ 55 then "B"
  else if score ≥ 50 then "CCC"
  else if score ≥ 40 then "CC"
  else "C"

/-! Embedding of esg_analyzer.py -/

/-- The latest-year row of a company slice: pandas
rows[rows.year == rows.year.max()].iloc[0]; None when the slice is empty. -/
def latestRowOf (rows : List Row) : Option Row :=
  match (rows.map Row.year).max? with
  | none => none
  | some y => (rows.filter (fun r => decide (r.year = y))).head?

/-- One entry of the risk list: category and severity (the description
string of the source carries the same data in prose). -/
structure Risk : Type where
  category : String
  severity : String
  deriving DecidableEq

/-- esg_analyzer.identify_risks: rule-based risk flags computed from the
latest-year row of the company; empty when the company has no rows. -/
def identify_risks (df : List Row) (company : String) : List Risk :=
  match latestRowOf (companyRows df company) with
  | none => []
  | some latest =>
    (if latest.environmental_score < 50 then
      [⟨"Environmental", if latest.environmental_score < 40 then "High" else "Medium"⟩]
     else []) ++
    (if latest.carbon_emissions_mt > 50 then
      [⟨"Environmental", if latest.carbon_emissions_mt > 100 then "High" else "Medium"⟩]
     else []) ++
    (if latest.social_score < 50 then
      [⟨"Social", if latest.social_score < 40 then "High" else "Medium"⟩]
     else []) ++
    (if latest.safety_incidents > 20 then
      [⟨"Social", if latest.safety_incidents > 40 then "High" else "Medium"⟩]
     else []) ++
    (if latest.governance_score < 60 then
      [⟨"Governance", if latest.governance_score < 50 then "High" else "Medium"⟩]
     else []) ++
    (if latest.board_independence_pct < 60 then
      [⟨"Governance", "Medium"⟩]
     else []) ++
    (if latest.controversy_score < 60 then
      [⟨"Reputation", if latest.controversy_score < 50 then "High" else "Medium"⟩]
     else [])

/-- pandas Series.mean on a list of values. -/
def listMean (xs : List ℚ) : ℚ := xs.sum / xs.length

/-- Sector benchmark dict of calculate_sector_benchmark. -/
structure Benchmark : Type where
  company_e : ℚ
  sector_e : ℚ
  company_s : ℚ
  sector_s : ℚ
  company_g : ℚ
  sector_g : ℚ
  company_total : ℚ
  sector_total : ℚ
  sector : String

/-- esg_analyzer.calculate_sector_benchmark: the company latest-year row
against the mean scores of its sector in that same year; None models the
empty dict returned when the company has no rows. -/
def calculate_sector_benchmark (df : List Row) (company : String) : Option Benchmark :=
  match latestRowOf (companyRows df company) with
  | none => none
  | some latest =>
    let sector_data := df.filter
      (fun r => decide (r.sector = latest.sector) && decide (r.year = latest.year))
    some ⟨latest.environmental_score, listMean (sector_data.map Row.environmental_score),
      latest.social_score, listMean (sector_data.map Row.social_score),
      latest.governance_score, listMean (sector_data.map Row.governance_score),
      latest.total_esg_score, listMean (sector_data.map Row.total_esg_score),
      latest.sector⟩

/-- One improvement recommendation of calculate_improvement_areas. -/
structure Improvement : Type where
  area : String
  gap : ℚ
  recommendation : String

/-- esg_analyzer.calculate_improvement_areas: one entry per pillar whose
company score is below the sector average, with the gap rounded to one
decimal; empty when the benchmark dict is empty. -/
def calculate_improvement_areas (df : List Row) (company : String) : List Improvement :=
  match calculate_sector_benchmark df company with
  | none => []
  | some b =>
    (if b.company_e < b.sector_e then
      [⟨"Environmental", round1 (b.sector_e - b.company_e),
        "Focus on reducing carbon emissions and improving energy efficiency"⟩]
     else []) ++
    (if b.company_s < b.sector_s then
      [⟨"Social", round1 (b.sector_s - b.company_s),
        "Enhance workforce diversity, safety programs, and community engagement"⟩]
     else []) ++
    (if b.company_g < b.sector_g then
      [⟨"Governance", round1 (b.sector_g - b.company_g),
        "Strengthen board independence and improve executive compensation alignment"⟩]
     else [])

/-! Embedding of peer_benchmark.py -/

/-- The global latest year of the dataset: self.data.year.max(). -/
def latestYear (df : List Row) : Option ℤ := (df.map Row.year).max?

/-- pandas Series.median: middle element of the sorted values, or the
mean of the two middle elements. -/
def listMedian (xs : List ℚ) : ℚ :=
  let s := xs.insertionSort (fun a b => a ≤ b)
  let n := s.length
  if n % 2 = 1 then s.getD (n / 2) 0
  else (s.getD (n / 2 - 1) 0 + s.getD (n / 2) 0) / 2

/-- pandas Series.var with ddof 1: None models the NaN returned on fewer
than two values. -/
def sampleVar (xs : List ℚ) : Option ℚ :=
  if xs.length < 2 then none
  else some ((xs.map (fun x => (x - listMean xs) ^ 2)).sum / ((xs.length : ℚ) - 1))

/-- pandas Series.std with ddof 1, given a square-root function on the
nonnegative rationals; None models NaN. -/
def sampleStd (sqrt : ℚ → ℚ) (xs : List ℚ) : Option ℚ := (sampleVar xs).map sqrt

/-- Python comparison sector_std > 0, where a NaN std compares False. -/
def stdPos : Option ℚ → Bool
  | some s => decide (0 < s)
  | none => false

/-- One metric entry of the dict built by calculate_peer_statistics. -/
structure PeerStat : Type where
  company_value : ℚ
  sector_mean : ℚ
  sector_median : ℚ
  sector_std : Option ℚ
  percentile : ℚ
  z_score : ℚ
  vs_mean : ℚ
  vs_median : ℚ
  deriving DecidableEq

/-- PeerBenchmarking.calculate_peer_statistics for one metric column:
company row and sector slice at the global latest year; None models the
empty dict returned when either slice is empty.  The square root inside
the standard deviation is a parameter. -/
def calculate_peer_statistics (sqrt : ℚ → ℚ) (df : List Row)
    (company sector : String) (metric : Row → ℚ) : Option PeerStat :=
  match latestYear df with
  | none => none
  | some y =>
    let company_data := df.filter
      (fun r => decide (r.company = company) && decide (r.year = y))
    let sector_data := df.filter
      (fun r => decide (r.sector = sector) && decide (r.year = y))
    match company_data.head? with
    | none => none
    | some c0 =>
      if sector_data.isEmpty then none
      else
        let company_value := metric c0
        let xs := sector_data.map metric
        let sector_mean := listMean xs
        let sector_median := listMedian xs
        let sector_std := sampleStd sqrt xs
        let percentile :=
          ((xs.countP (fun x => decide (x < company_value)) : ℚ) /
            (sector_data.length : ℚ)) * 100
        let z_score :=
          if stdPos sector_std then
            (company_value - sector_mean) / (sector_std.getD 0)
          else 0
        some ⟨company_value, sector_mean, sector_median, sector_std,
          percentile, z_score, company_value - sector_mean,
          company_value - sector_median⟩

/-- One company and metric cell of the benchmark matrix: the raw value
(None models NaN) and the percentile column when present. -/
structure MatrixEntry : Type where
  company : String
  value : Option ℚ
  percentile : Option ℚ
  deriving DecidableEq

/-- PeerBenchmarking.create_benchmark_matrix for one metric column, which
may be null in some rows: each selected company row at the global latest
year gets the metric value and its percentile among the non-null
latest-year values of all companies (a comparison against NaN counts no
values; no percentile entry is written when no non-null value exists). -/
def create_benchmark_matrix (df : List Row) (companies : List String)
    (metric : Row → Option ℚ) : List MatrixEntry :=
  match latestYear df with
  | none => []
  | some y =>
    let company_data := df.filter
      (fun r => decide (r.company ∈ companies) && decide (r.year = y))
    company_data.map (fun r =>
      let all_values := (df.filter (fun r2 => decide (r2.year = y))).filterMap metric
      let cnt : ℕ := match metric r with
        | some v => all_values.countP (fun x => decide (x < v))
        | none => 0
      ⟨r.company, metric r,
        if all_values.length = 0 then none
        else some (((cnt : ℚ) / (all_values.length : ℚ)) * 100)⟩)

/-! Helper lemmas -/

lemma applyFilter_sublist {β : Type} [DecidableEq β] (d : List Row)
    (crit : Option (List β)) (field : Row → β) : (applyFilter d crit field).Sublist d := by
  unfold applyFilter
  match crit with
  | none => exact List.Sublist.refl d
  | some l =>
    by_cases hl : l.isEmpty <;> simp [hl]

lemma mem_applyFilter {β : Type} [DecidableEq β] (d : List Row)
    (crit : Option (List β)) (field : Row → β) (r : Row) :
    r ∈ applyFilter d crit field ↔
      r ∈ d ∧ ∀ l, crit = some l → l ≠ [] → field r ∈ l := by
  unfold applyFilter
  match crit with
  | none => simp
  | some l =>
    by_cases hl : l.isEmpty
    · rw [List.isEmpty_iff] at hl
      subst hl
      simp
    · rw [List.isEmpty_iff] at hl
      simp [hl, List.mem_filter]

/-- C1: simulate_improvements projects each pillar to
min(100, current + current * improvement_pct / 100) with missing entries
read as 0, sets delta to projected minus current, and never projects a
pillar above 100. -/
theorem c1_simulate_improvements
    (current_scores improvements : Pillar → Option ℚ) (p : Pillar) :
    (simulate_improvements current_scores improvements).projected p =
      min 100 ((current_scores p).getD 0 +
        (current_scores p).getD 0 * (improvements p).getD 0 / 100) ∧
    (simulate_improvements current_scores improvements).delta p =
      (simulate_improvements current_scores improvements).projected p -
        (current_scores p).getD 0 ∧
    (simulate_improvements current_scores improvements).projected p ≤ 100 :=
  ⟨rfl, rfl, min_le_left _ _⟩

/-- C8 counterexample: at score 70 the loader rates AA while the simulator
rates A, so the two score-to-rating maps are not equivalent. -/
theorem c8_ratings_differ_at_70 :
    (get_esg_rating 70).1 ≠ score_to_rating 70 := by decide

/-- C8 amended: the loader rating and the simulator rating agree exactly
on the scores of at least 75 (both give AAA from 80 and AA on [75, 80)),
and disagree on every score below 75. -/
theorem c8_ratings_agree_iff (score : ℚ) :
    (get_esg_rating score).1 = score_to_rating score ↔ 75 ≤ score := by
  unfold get_esg_rating score_to_rating
  split_ifs <;> simp_all <;> linarith

/-- C6: a row is in the output of filter_data iff it is an input row whose
fields belong to every criterion list that is given and non-empty; the
output is a sublist of the input, so rows keep their original order
(the model is purely functional, matching the source copying the frame
before filtering). -/
theorem c6_filter_data_characterization (df : List Row)
    (companies sectors countries : Option (List String)) (years : Option (List ℤ)) :
    (filter_data df companies sectors countries years).Sublist df ∧
    ∀ r : Row, r ∈ filter_data df companies sectors countries years ↔
      r ∈ df ∧
      (∀ l, companies = some l → l ≠ [] → r.company ∈ l) ∧
      (∀ l, sectors = some l → l ≠ [] → r.sector ∈ l) ∧
      (∀ l, countries = some l → l ≠ [] → r.country ∈ l) ∧
      (∀ l, years = some l → l ≠ [] → r.year ∈ l) := by
  constructor
  · exact ((((applyFilter_sublist _ _ _).trans
      (applyFilter_sublist _ _ _)).trans
      (applyFilter_sublist _ _ _)).trans
      (applyFilter_sublist _ _ _))
  · intro r
    unfold filter_data
    rw [mem_applyFilter, mem_applyFilter, mem_applyFilter, mem_applyFilter]
    tauto

/-- C10: filter_data with every criterion omitted or an empty list is the
identity. -/
theorem c10_filter_data_identity (df : List Row)
    (companies sectors countries : Option (List String)) (years : Option (List ℤ))
    (hc : companies = none ∨ companies = some [])
    (hs : sectors = none ∨ sectors = some [])
    (hn : countries = none ∨ countries = some [])
    (hy : years = none ∨ years = some []) :
    filter_data df companies sectors countries years = df := by
  have step : ∀ {β : Type} [DecidableEq β] (d : List Row) (crit : Option (List β))
      (field : Row → β), (crit = none ∨ crit = some []) → applyFilter d crit field = d := by
    intro β _ d crit field hcrit
    rcases hcrit with h | h <;> subst h <;> simp [applyFilter]
  unfold filter_data
  rw [step _ _ _ hc, step _ _ _ hs, step _ _ _ hn, step _ _ _ hy]

/-- A sample row used by the witnesses. -/
def rowA : Row :=
  ⟨"Acme", "Tech", "US", 2023, 45, 62, 55, 54, 120, 48, 30, 25, 55, 60, 10⟩

/-- A second sample row, same sector, same year. -/
def rowB : Row :=
  ⟨"Beta", "Tech", "DE", 2023, 70, 58, 72, 66, 30, 80, 12, 5, 80, 50, 8⟩

/-- An earlier-year row of the first sample company. -/
def rowA22 : Row :=
  ⟨"Acme", "Tech", "US", 2022, 40, 60, 50, 50, 130, 52, 28, 30, 50, 55, 12⟩

/-- Witness for C10 at a concrete frame and mixed None / empty criteria. -/
theorem c10_witness :
    ((none : Option (List String)) = none ∨ (none : Option (List String)) = some []) ∧
    filter_data [rowA, rowB] none (some []) none (some []) = [rowA, rowB] :=
  ⟨Or.inl rfl,
    c10_filter_data_identity [rowA, rowB] none (some []) none (some [])
      (Or.inl rfl) (Or.inr rfl) (Or.inl rfl) (Or.inr rfl)⟩

instance : IsTotal Row (fun a b => a.year ≤ b.year) :=
  ⟨fun a b => le_total a.year b.year⟩

instance : IsTrans Row (fun a b => a.year ≤ b.year) :=
  ⟨fun _ _ _ h h2 => le_trans h h2⟩

lemma diffList_length (xs : List ℚ) : (diffList xs).length = xs.length := by
  cases xs with
  | nil => rfl
  | cons x rest =>
    simp [diffList, List.length_zipWith]

lemma diffList_head (x : ℚ) (rest : List ℚ) :
    (diffList (x :: rest)).head? = some none := rfl

lemma zipDiff_getD : ∀ (rest : List ℚ) (x : ℚ) (i : ℕ), i < rest.length →
    (List.zipWith (fun b a => some (b - a)) rest (x :: rest)).getD i none =
      some (rest.getD i 0 - (x :: rest).getD i 0)
  | [], _, i, h => by simp at h
  | _ :: _, _, 0, _ => rfl
  | y :: rest, x, i + 1, h => by
    simpa using zipDiff_getD rest y i (by simpa using h)

lemma diffList_getD_succ (xs : List ℚ) (i : ℕ) (h : i + 1 < xs.length) :
    (diffList xs).getD (i + 1) none = some (xs.getD (i + 1) 0 - xs.getD i 0) := by
  cases xs with
  | nil => simp at h
  | cons x rest =>
    have hi : i < rest.length := by simpa using h
    simpa [diffList] using zipDiff_getD rest x i hi

lemma colFn_default (col : ScoreCol) : colFn col (default : Row) = 0 := by
  cases col <;> rfl

/-- C5: calculate_yoy_change returns the company rows sorted by ascending
year (a permutation of the company slice), and each change column has the
same length as the row list, an undefined (NaN) first entry, and at every
later position the difference between that row score and the score of the
immediately preceding row in sorted-year order. -/
theorem c5_calculate_yoy_change (df : List Row) (company : String) (col : ScoreCol) :
    (calculate_yoy_change df company).rows.Perm (companyRows df company) ∧
    List.Pairwise (fun a b => a.year ≤ b.year) (calculate_yoy_change df company).rows ∧
    ((calculate_yoy_change df company).changes col).length =
      (calculate_yoy_change df company).rows.length ∧
    (∀ r0 rest, (calculate_yoy_change df company).rows = r0 :: rest →
      ((calculate_yoy_change df company).changes col).head? = some none) ∧
    (∀ i, i + 1 < (calculate_yoy_change df company).rows.length →
      ((calculate_yoy_change df company).changes col).getD (i + 1) none =
        some (colFn col ((calculate_yoy_change df company).rows.getD (i + 1) default) -
          colFn col ((calculate_yoy_change df company).rows.getD i default))) := by
  unfold calculate_yoy_change
  refine ⟨List.perm_insertionSort _ _, List.sorted_insertionSort _ _, ?_, ?_, ?_⟩
  · simp [diffList_length]
  · intro r0 rest h
    have h2 : sortByYear (companyRows df company) = r0 :: rest := h
    show (diffList ((sortByYear (companyRows df company)).map (colFn col))).head? = some none
    rw [h2]
    rfl
  · intro i hi
    have hlen : i + 1 < ((sortByYear (companyRows df company)).map (colFn col)).length := by
      simpa using hi
    rw [diffList_getD_succ _ _ hlen]
    rw [show (0 : ℚ) = colFn col (default : Row) from (colFn_default col).symm,
      List.getD_map, List.getD_map]

instance : Inhabited TrajRow := ⟨⟨0, 0, 0, 0, 0⟩⟩

/-- Pillar accessor of a trajectory row. -/
def trajCol : Pillar → TrajRow → ℚ
  | .environmental => TrajRow.environmental
  | .social => TrajRow.social
  | .governance => TrajRow.governance

lemma trajScore_le_100 {c r : ℚ} (hc : c ≤ 100) : ∀ n, trajScore c r n ≤ 100
  | 0 => hc
  | _ + 1 => min_le_left _ _

lemma trajScore_mono {c r : ℚ} (hc : c ≤ 100) (hr : 0 ≤ r) (n : ℕ) :
    trajScore c r n ≤ trajScore c r (n + 1) := by
  have hs : trajScore c r n ≤ 100 := trajScore_le_100 hc n
  show trajScore c r n ≤ trajStep r (trajScore c r n)
  unfold trajStep
  refine le_min hs ?_
  have hnn : 0 ≤ (100 - trajScore c r n) * (r / 100) * (1 / 2) := by
    have h1 : 0 ≤ 100 - trajScore c r n := by linarith
    have h2 : 0 ≤ r / 100 := by positivity
    positivity
  linarith

lemma predict_getD (current_scores annual_improvement_rate : Pillar → Option ℚ)
    (years : ℕ) (i : ℕ) (h : i < years + 1) :
    (predict_future_trajectory current_scores annual_improvement_rate years).getD i default =
      ⟨i, round1 (trajScore ((current_scores .environmental).getD 0)
            ((annual_improvement_rate .environmental).getD 0) i),
        round1 (trajScore ((current_scores .social).getD 0)
            ((annual_improvement_rate .social).getD 0) i),
        round1 (trajScore ((current_scores .governance).getD 0)
            ((annual_improvement_rate .governance).getD 0) i),
        calculate_total_score
          (round1 (trajScore ((current_scores .environmental).getD 0)
            ((annual_improvement_rate .environmental).getD 0) i))
          (round1 (trajScore ((current_scores .social).getD 0)
            ((annual_improvement_rate .social).getD 0) i))
          (round1 (trajScore ((current_scores .governance).getD 0)
            ((annual_improvement_rate .governance).getD 0) i))⟩ := by
  unfold predict_future_trajectory
  rw [List.getD_eq_getElem?_getD, List.getElem?_map, List.getElem?_range h]
  rfl

/-- C2: with current pillar scores in [0, 100] and nonnegative annual
rates, each pillar column of predict_future_trajectory is non-decreasing
in the projection year and never exceeds 100, the year-0 entry is the
current score rounded to one decimal, and the underlying yearly step adds
(100 - score) * (rate / 100) * 0.5 to the running score, capped at 100. -/
theorem c2_predict_future_trajectory
    (current_scores annual_improvement_rate : Pillar → Option ℚ) (years : ℕ)
    (hc : ∀ p : Pillar, 0 ≤ (current_scores p).getD 0 ∧ (current_scores p).getD 0 ≤ 100)
    (hr : ∀ p : Pillar, 0 ≤ (annual_improvement_rate p).getD 0) :
    (predict_future_trajectory current_scores annual_improvement_rate years).length =
      years + 1 ∧
    (∀ p : Pillar, ∀ i, i + 1 < years + 1 →
      trajCol p ((predict_future_trajectory current_scores annual_improvement_rate
          years).getD i default) ≤
        trajCol p ((predict_future_trajectory current_scores annual_improvement_rate
          years).getD (i + 1) default)) ∧
    (∀ p : Pillar, ∀ i, i < years + 1 →
      trajCol p ((predict_future_trajectory current_scores annual_improvement_rate
          years).getD i default) ≤ 100) ∧
    (∀ p : Pillar,
      trajCol p ((predict_future_trajectory current_scores annual_improvement_rate
          years).getD 0 default) = round1 ((current_scores p).getD 0)) ∧
    (∀ p : Pillar, ∀ n : ℕ,
      trajScore ((current_scores p).getD 0) ((annual_improvement_rate p).getD 0) (n + 1) =
        min 100 (trajScore ((current_scores p).getD 0)
            ((annual_improvement_rate p).getD 0) n +
          (100 - trajScore ((current_scores p).getD 0)
              ((annual_improvement_rate p).getD 0) n) *
            (((annual_improvement_rate p).getD 0) / 100) * (1 / 2))) := by
  refine ⟨by simp [predict_future_trajectory], ?_, ?_, ?_, fun p n => rfl⟩
  · intro p i h
    rw [predict_getD _ _ _ _ (by omega), predict_getD _ _ _ _ h]
    cases p <;>
      exact round1_mono (trajScore_mono (hc _).2 (hr _) i)
  · intro p i h
    rw [predict_getD _ _ _ _ h]
    cases p <;>
      exact round1_le_100 (trajScore_le_100 (hc _).2 i)
  · intro p
    rw [predict_getD _ _ _ _ (by omega)]
    cases p <;> rfl

/-- Witness for C2 at concrete score 50 and rate 10 over three years. -/
theorem c2_witness :
    (∀ p : Pillar, 0 ≤ ((fun _ => some (50 : ℚ)) p).getD 0 ∧
      ((fun _ => some (50 : ℚ)) p).getD 0 ≤ 100) ∧
    ((predict_future_trajectory (fun _ => some 50) (fun _ => some 10) 3).length = 3 + 1 ∧
      (∀ p : Pillar, ∀ i, i + 1 < 3 + 1 →
        trajCol p ((predict_future_trajectory (fun _ => some 50)
            (fun _ => some 10) 3).getD i default) ≤
          trajCol p ((predict_future_trajectory (fun _ => some 50)
            (fun _ => some 10) 3).getD (i + 1) default)) ∧
      (∀ p : Pillar, ∀ i, i < 3 + 1 →
        trajCol p ((predict_future_trajectory (fun _ => some 50)
            (fun _ => some 10) 3).getD i default) ≤ 100) ∧
      (∀ p : Pillar,
        trajCol p ((predict_future_trajectory (fun _ => some 50)
            (fun _ => some 10) 3).getD 0 default) =
          round1 (((fun _ => some (50 : ℚ)) p).getD 0)) ∧
      (∀ p : Pillar, ∀ n : ℕ,
        trajScore (((fun _ => some (50 : ℚ)) p).getD 0)
            (((fun _ => some (10 : ℚ)) p).getD 0) (n + 1) =
          min 100 (trajScore (((fun _ => some (50 : ℚ)) p).getD 0)
              (((fun _ => some (10 : ℚ)) p).getD 0) n +
            (100 - trajScore (((fun _ => some (50 : ℚ)) p).getD 0)
                (((fun _ => some (10 : ℚ)) p).getD 0) n) *
              ((((fun _ => some (10 : ℚ)) p).getD 0) / 100) * (1 / 2)))) :=
  ⟨by decide,
    c2_predict_future_trajectory (fun _ => some 50) (fun _ => some 10) 3
      (by decide) (by decide)⟩

/-- C4: for a company present in the data, identify_risks returns exactly
the flags fixed by the thresholds on its latest-year row: Environmental
iff environmental_score < 50 (High iff < 40), emissions iff
carbon_emissions_mt > 50 (High iff > 100), Social iff social_score < 50
(High iff < 40), safety iff safety_incidents > 20 (High iff > 40),
Governance iff governance_score < 60 (High iff < 50), board iff
board_independence_pct < 60 (always Medium), controversy iff
controversy_score < 60 (High iff < 50). -/
theorem c4_identify_risks (df : List Row) (company : String) (latest : Row)
    (h : latestRowOf (companyRows df company) = some latest) :
    identify_risks df company =
      (if latest.environmental_score < 50 then
        [⟨"Environmental",
          if latest.environmental_score < 40 then "High" else "Medium"⟩]
       else []) ++
      (if latest.carbon_emissions_mt > 50 then
        [⟨"Environmental",
          if latest.carbon_emissions_mt > 100 then "High" else "Medium"⟩]
       else []) ++
      (if latest.social_score < 50 then
        [⟨"Social", if latest.social_score < 40 then "High" else "Medium"⟩]
       else []) ++
      (if latest.safety_incidents > 20 then
        [⟨"Social", if latest.safety_incidents > 40 then "High" else "Medium"⟩]
       else []) ++
      (if latest.governance_score < 60 then
        [⟨"Governance",
          if latest.governance_score < 50 then "High" else "Medium"⟩]
       else []) ++
      (if latest.board_independence_pct < 60 then
        [(⟨"Governance", "Medium"⟩ : Risk)]
       else []) ++
      (if latest.controversy_score < 60 then
        [⟨"Reputation",
          if latest.controversy_score < 50 then "High" else "Medium"⟩]
       else []) := by
  unfold identify_risks
  rw [h]

/-- Witness for C4: the sample company has a latest-year row, and its
risk list is the threshold-determined list of that row. -/
theorem c4_witness :
    latestRowOf (companyRows [rowA22, rowA, rowB] "Acme") = some rowA ∧
    identify_risks [rowA22, rowA, rowB] "Acme" =
      (if rowA.environmental_score < 50 then
        [⟨"Environmental",
          if rowA.environmental_score < 40 then "High" else "Medium"⟩]
       else []) ++
      (if rowA.carbon_emissions_mt > 50 then
        [⟨"Environmental",
          if rowA.carbon_emissions_mt > 100 then "High" else "Medium"⟩]
       else []) ++
      (if rowA.social_score < 50 then
        [⟨"Social", if rowA.social_score < 40 then "High" else "Medium"⟩]
       else []) ++
      (if rowA.safety_incidents > 20 then
        [⟨"Social", if rowA.safety_incidents > 40 then "High" else "Medium"⟩]
       else []) ++
      (if rowA.governance_score < 60 then
        [⟨"Governance",
          if rowA.governance_score < 50 then "High" else "Medium"⟩]
       else []) ++
      (if rowA.board_independence_pct < 60 then
        [(⟨"Governance", "Medium"⟩ : Risk)]
       else []) ++
      (if rowA.controversy_score < 60 then
        [⟨"Reputation",
          if rowA.controversy_score < 50 then "High" else "Medium"⟩]
       else []) :=
  ⟨by decide, c4_identify_risks [rowA22, rowA, rowB] "Acme" rowA (by decide)⟩

/-- C9: for a company name absent from the company column, the analysis
operations return the empty result without failing: identify_risks and
calculate_improvement_areas the empty list, calculate_sector_benchmark
and calculate_peer_statistics the empty dict. -/
theorem c9_missing_company (df : List Row) (company sector : String)
    (sqrt : ℚ → ℚ) (metric : Row → ℚ)
    (h : ∀ r ∈ df, r.company ≠ company) :
    identify_risks df company = [] ∧
    calculate_sector_benchmark df company = none ∧
    calculate_improvement_areas df company = [] ∧
    calculate_peer_statistics sqrt df company sector metric = none := by
  have hrows : companyRows df company = [] := by
    unfold companyRows
    rw [List.filter_eq_nil_iff]
    intro r hr
    simpa using h r hr
  have hlat : latestRowOf (companyRows df company) = none := by
    rw [hrows]
    rfl
  have hbench : calculate_sector_benchmark df company = none := by
    unfold calculate_sector_benchmark
    rw [hlat]
  refine ⟨?_, hbench, ?_, ?_⟩
  · unfold identify_risks
    rw [hlat]
  · unfold calculate_improvement_areas
    rw [hbench]
  · unfold calculate_peer_statistics
    match hy : latestYear df with
    | none => rfl
    | some y =>
      have hcd : df.filter
          (fun r => decide (r.company = company) && decide (r.year = y)) = [] := by
        rw [List.filter_eq_nil_iff]
        intro r hr
        simp [h r hr]
      simp [hcd]

/-- Witness for C9: the company Zeta does not occur in the sample frame,
and all four operations return empty results on it. -/
theorem c9_witness :
    (∀ r ∈ [rowA22, rowA, rowB], r.company ≠ "Zeta") ∧
    (identify_risks [rowA22, rowA, rowB] "Zeta" = [] ∧
      calculate_sector_benchmark [rowA22, rowA, rowB] "Zeta" = none ∧
      calculate_improvement_areas [rowA22, rowA, rowB] "Zeta" = [] ∧
      calculate_peer_statistics id [rowA22, rowA, rowB] "Zeta" "Tech"
        Row.total_esg_score = none) :=
  ⟨by decide, c9_missing_company [rowA22, rowA, rowB] "Zeta" "Tech" id
    Row.total_esg_score (by decide)⟩

lemma peer_statistics_spec (sqrt : ℚ → ℚ) (df : List Row)
    (company sector : String) (metric : Row → ℚ) (st : PeerStat)
    (h : calculate_peer_statistics sqrt df company sector metric = some st) :
    ∃ y c0, latestYear df = some y ∧
      (df.filter (fun r => decide (r.company = company) &&
        decide (r.year = y))).head? = some c0 ∧
      (df.filter (fun r => decide (r.sector = sector) &&
        decide (r.year = y))).isEmpty = false ∧
      st = ⟨metric c0,
        listMean ((df.filter (fun r => decide (r.sector = sector) &&
          decide (r.year = y))).map metric),
        listMedian ((df.filter (fun r => decide (r.sector = sector) &&
          decide (r.year = y))).map metric),
        sampleStd sqrt ((df.filter (fun r => decide (r.sector = sector) &&
          decide (r.year = y))).map metric),
        ((((df.filter (fun r => decide (r.sector = sector) &&
            decide (r.year = y))).map metric).countP
            (fun x => decide (x < metric c0)) : ℚ) /
          ((df.filter (fun r => decide (r.sector = sector) &&
            decide (r.year = y))).length : ℚ)) * 100,
        (if stdPos (sampleStd sqrt ((df.filter (fun r => decide (r.sector = sector) &&
            decide (r.year = y))).map metric)) then
          (metric c0 - listMean ((df.filter (fun r => decide (r.sector = sector) &&
            decide (r.year = y))).map metric)) /
            ((sampleStd sqrt ((df.filter (fun r => decide (r.sector = sector) &&
              decide (r.year = y))).map metric)).getD 0)
         else 0),
        metric c0 - listMean ((df.filter (fun r => decide (r.sector = sector) &&
          decide (r.year = y))).map metric),
        metric c0 - listMedian ((df.filter (fun r => decide (r.sector = sector) &&
          decide (r.year = y))).map metric)⟩ := by
  unfold calculate_peer_statistics at h
  cases hly : latestYear df with
  | none =>
    rw [hly] at h
    simp at h
  | some y =>
    rw [hly] at h
    simp only at h
    cases hc0 : (df.filter (fun r => decide (r.company = company) &&
        decide (r.year = y))).head? with
    | none =>
      rw [hc0] at h
      simp at h
    | some c0 =>
      rw [hc0] at h
      dsimp only at h
      by_cases hse : (df.filter (fun r => decide (r.sector = sector) &&
          decide (r.year = y))).isEmpty
      · rw [if_pos hse] at h
        simp at h
      · rw [if_neg hse] at h
        exact ⟨y, c0, rfl, hc0, by simpa using hse, (Option.some.inj h).symm⟩

/-- C3: the percentile computed by calculate_peer_statistics is the number
of latest-year sector rows whose metric is strictly below the company
value, divided by the number of latest-year sector rows, times 100; and
each percentile column of create_benchmark_matrix uses the same
strict-less-than formula over the non-null latest-year values of all
companies. -/
theorem c3_percentile_formula (sqrt : ℚ → ℚ) (df : List Row)
    (company sector : String) (metric : Row → ℚ) (st : PeerStat)
    (h : calculate_peer_statistics sqrt df company sector metric = some st) :
    (∃ y, latestYear df = some y ∧
      st.percentile =
        (((df.filter (fun r => decide (r.sector = sector) &&
            decide (r.year = y))).countP
            (fun r => decide (metric r < st.company_value)) : ℚ) /
          ((df.filter (fun r => decide (r.sector = sector) &&
            decide (r.year = y))).length : ℚ)) * 100) ∧
    (∀ (companies : List String) (m : Row → Option ℚ) (e : MatrixEntry) (v : ℚ),
      e ∈ create_benchmark_matrix df companies m → e.value = some v →
      ∃ y, latestYear df = some y ∧
        e.percentile = some
          (((((df.filter (fun r2 => decide (r2.year = y))).filterMap m).countP
              (fun x => decide (x < v)) : ℚ)) /
            (((df.filter (fun r2 => decide (r2.year = y))).filterMap m).length : ℚ) *
            100)) := by
  constructor
  · obtain ⟨y, c0, hly, hc0, hse, hst⟩ :=
      peer_statistics_spec sqrt df company sector metric st h
    refine ⟨y, hly, ?_⟩
    rw [hst]
    simp only [List.countP_map]
    rfl
  · intro companies m e v he hv
    unfold create_benchmark_matrix at he
    cases hly : latestYear df with
    | none =>
      rw [hly] at he
      simp at he
    | some y =>
      rw [hly] at he
      dsimp only at he
      obtain ⟨r, hr, rfl⟩ := List.mem_map.mp he
      refine ⟨y, rfl, ?_⟩
      have hmr : m r = some v := hv
      have hrdf : r ∈ df ∧ r.year = y := by
        have := List.mem_filter.mp hr
        refine ⟨this.1, ?_⟩
        have h2 := this.2
        simp only [Bool.and_eq_true, decide_eq_true_eq] at h2
        exact h2.2
      have hvmem : v ∈ (df.filter (fun r2 => decide (r2.year = y))).filterMap m := by
        apply List.mem_filterMap.mpr
        exact ⟨r, List.mem_filter.mpr ⟨hrdf.1, by simp [hrdf.2]⟩, hmr⟩
      have hlen : ((df.filter (fun r2 => decide (r2.year = y))).filterMap m).length ≠ 0 := by
        intro h0
        rw [List.length_eq_zero] at h0
        rw [h0] at hvmem
        simp at hvmem
      simp [hmr, hlen]

/-- Witness for C3: concrete peer statistics on the sample frame, with
the theorem applied at that frame. -/
theorem c3_witness :
    calculate_peer_statistics id [rowA22, rowA, rowB] "Acme" "Tech"
      Row.total_esg_score = some ⟨54, 60, 60, some 72, 0, -1/12, -6, -6⟩ ∧
    ((∃ y, latestYear [rowA22, rowA, rowB] = some y ∧
      (⟨54, 60, 60, some 72, 0, -1/12, -6, -6⟩ : PeerStat).percentile =
        ((([rowA22, rowA, rowB].filter (fun r => decide (r.sector = "Tech") &&
            decide (r.year = y))).countP
            (fun r => decide (r.total_esg_score <
              (⟨54, 60, 60, some 72, 0, -1/12, -6, -6⟩ : PeerStat).company_value)) : ℚ) /
          (([rowA22, rowA, rowB].filter (fun r => decide (r.sector = "Tech") &&
            decide (r.year = y))).length : ℚ)) * 100) ∧
    (∀ (companies : List String) (m : Row → Option ℚ) (e : MatrixEntry) (v : ℚ),
      e ∈ create_benchmark_matrix [rowA22, rowA, rowB] companies m → e.value = some v →
      ∃ y, latestYear [rowA22, rowA, rowB] = some y ∧
        e.percentile = some
          (((([rowA22, rowA, rowB].filter (fun r2 => decide (r2.year = y))).filterMap
              m).countP (fun x => decide (x < v)) : ℚ) /
            ((([rowA22, rowA, rowB].filter (fun r2 => decide (r2.year = y))).filterMap
              m).length : ℚ) * 100))) :=
  ⟨by
    norm_num [calculate_peer_statistics, latestYear, rowA, rowA22, rowB, listMean,
      listMedian, sampleStd, sampleVar, stdPos, List.insertionSort, List.orderedInsert],
    c3_percentile_formula id [rowA22, rowA, rowB] "Acme" "Tech" Row.total_esg_score
      ⟨54, 60, 60, some 72, 0, -1/12, -6, -6⟩ (by
        norm_num [calculate_peer_statistics, latestYear, rowA, rowA22, rowB, listMean,
          listMedian, sampleStd, sampleVar, stdPos, List.insertionSort,
          List.orderedInsert])⟩

lemma sampleVar_nonneg (xs : List ℚ) (v : ℚ) (h : sampleVar xs = some v) : 0 ≤ v := by
  unfold sampleVar at h
  split_ifs at h with hl
  rcases Option.some.inj h with rfl
  apply div_nonneg
  · apply List.sum_nonneg
    intro x hx
    rw [List.mem_map] at hx
    obtain ⟨a, _, rfl⟩ := hx
    positivity
  · have h2 : (2 : ℚ) ≤ (xs.length : ℚ) := by
      have : 2 ≤ xs.length := by omega
      exact_mod_cast this
    linarith

/-- C7: the z-score of calculate_peer_statistics is always well-defined.
With any square root that is zero at zero and positive on positives, the
sector standard deviation is the square root of the ddof-1 sample
variance of the latest-year sector values; that variance is nonnegative
and is undefined exactly on sectors with fewer than two rows; the z-score
is (company value - sector mean) / std when the variance is strictly
positive (so the divisor is strictly positive), and 0 when the variance
is zero or undefined. -/
theorem c7_zscore_welldefined (sqrt : ℚ → ℚ)
    (h0 : sqrt 0 = 0) (hpos : ∀ q, 0 < q → 0 < sqrt q)
    (df : List Row) (company sector : String) (metric : Row → ℚ) (st : PeerStat)
    (h : calculate_peer_statistics sqrt df company sector metric = some st) :
    ∃ y, latestYear df = some y ∧
      st.sector_std = sampleStd sqrt
        ((df.filter (fun r => decide (r.sector = sector) &&
          decide (r.year = y))).map metric) ∧
      (∀ v, sampleVar ((df.filter (fun r => decide (r.sector = sector) &&
          decide (r.year = y))).map metric) = some v → 0 ≤ v) ∧
      (sampleVar ((df.filter (fun r => decide (r.sector = sector) &&
          decide (r.year = y))).map metric) = none → st.z_score = 0) ∧
      (sampleVar ((df.filter (fun r => decide (r.sector = sector) &&
          decide (r.year = y))).map metric) = some 0 → st.z_score = 0) ∧
      (∀ v, sampleVar ((df.filter (fun r => decide (r.sector = sector) &&
          decide (r.year = y))).map metric) = some v → 0 < v →
        0 < sqrt v ∧
          st.z_score = (st.company_value - st.sector_mean) / sqrt v) := by
  obtain ⟨y, c0, hly, hc0, hse, hst⟩ :=
    peer_statistics_spec sqrt df company sector metric st h
  refine ⟨y, hly, ?_, fun v hv => sampleVar_nonneg _ v hv, ?_, ?_, ?_⟩
  · rw [hst]
  · intro hvar
    rw [hst]
    show (if stdPos (sampleStd sqrt _) then _ else 0) = 0
    rw [sampleStd, hvar]
    rfl
  · intro hvar
    rw [hst]
    show (if stdPos (sampleStd sqrt _) then _ else 0) = 0
    rw [sampleStd, hvar]
    simp [stdPos, h0]
  · intro v hvar hvpos
    have hsq : 0 < sqrt v := hpos v hvpos
    refine ⟨hsq, ?_⟩
    rw [hst]
    show (if stdPos (sampleStd sqrt _) then _ else 0) = _
    rw [sampleStd, hvar]
    simp [stdPos, hsq]

/-- Witness for C7: on the sample frame the Tech sector has two rows,
positive sample variance, and the theorem applies with the identity as
the abstract square root. -/
theorem c7_witness :
    (id (0 : ℚ) = 0) ∧ (∀ q : ℚ, 0 < q → 0 < id q) ∧
    calculate_peer_statistics id [rowA22, rowA, rowB] "Acme" "Tech"
      Row.environmental_score =
        some ⟨45, 115/2, 115/2, some (625/2), 0, -1/25, -25/2, -25/2⟩ ∧
    (∃ y, latestYear [rowA22, rowA, rowB] = some y ∧
      (⟨45, 115/2, 115/2, some (625/2), 0, -1/25, -25/2, -25/2⟩ : PeerStat).sector_std =
        sampleStd id (([rowA22, rowA, rowB].filter (fun r => decide (r.sector = "Tech") &&
          decide (r.year = y))).map Row.environmental_score) ∧
      (∀ v, sampleVar (([rowA22, rowA, rowB].filter (fun r => decide (r.sector = "Tech") &&
          decide (r.year = y))).map Row.environmental_score) = some v → 0 ≤ v) ∧
      (sampleVar (([rowA22, rowA, rowB].filter (fun r => decide (r.sector = "Tech") &&
          decide (r.year = y))).map Row.environmental_score) = none →
        (⟨45, 115/2, 115/2, some (625/2), 0, -1/25, -25/2, -25/2⟩ : PeerStat).z_score = 0) ∧
      (sampleVar (([rowA22, rowA, rowB].filter (fun r => decide (r.sector = "Tech") &&
          decide (r.year = y))).map Row.environmental_score) = some 0 →
        (⟨45, 115/2, 115/2, some (625/2), 0, -1/25, -25/2, -25/2⟩ : PeerStat).z_score = 0) ∧
      (∀ v, sampleVar (([rowA22, rowA, rowB].filter (fun r => decide (r.sector = "Tech") &&
          decide (r.year = y))).map Row.environmental_score) = some v → 0 < v →
        0 < id v ∧
          (⟨45, 115/2, 115/2, some (625/2), 0, -1/25, -25/2, -25/2⟩ : PeerStat).z_score =
            ((⟨45, 115/2, 115/2, some (625/2), 0, -1/25, -25/2, -25/2⟩ : PeerStat).company_value -
              (⟨45, 115/2, 115/2, some (625/2), 0, -1/25, -25/2, -25/2⟩ : PeerStat).sector_mean) /
              id v)) :=
  ⟨rfl, fun _ h => h,
    by
      norm_num [calculate_peer_statistics, latestYear, rowA, rowA22, rowB, listMean,
        listMedian, sampleStd, sampleVar, stdPos, List.insertionSort, List.orderedInsert],
    c7_zscore_welldefined id rfl (fun _ h => h) [rowA22, rowA, rowB] "Acme" "Tech"
      Row.environmental_score ⟨45, 115/2, 115/2, some (625/2), 0, -1/25, -25/2, -25/2⟩
      (by
        norm_num [calculate_peer_statistics, latestYear, rowA, rowA22, rowB, listMean,
          listMedian, sampleStd, sampleVar, stdPos, List.insertionSort,
          List.orderedInsert])⟩
